import Mathlib

/-!
Shallow embedding of the nb-runtype package (src/nb_runtype/runtype.py),
which augments an IPython session so that new function definitions are
wrapped with pydantic-based runtime type validation.

The embedding models:
* the reserved names (module constants, runtype.py lines 15-18);
* the normalized error type RuntypeError (lines 21-39), as a constructor of
  an exception type PyExc;
* the AST transformer RuntypeASTDecorator (lines 42-58) over decorator lists;
* the decorator _runtype with its sync and async wrappers (lines 124-168);
* session control: enable_runtype (lines 79-187) and get_runtype_config
  (lines 235-248), over an explicit IPython-shell state;
* the exclusion marker no_runtype (lines 251-260), as the per-function
  attribute it sets.

The pydantic validation engine (validate_call) is external to the repository;
where a claim needs its behaviour it is modelled from the spec and the
definition says so in its doc comment.
-/

namespace NbRuntype

/-- Module constant _RUNTYPE_WRAPPER (runtype.py line 15): the reserved name
under which the decorator is injected into the user namespace, and the marker
identifier the AST transformer looks for. -/
def _RUNTYPE_WRAPPER : String := "_runtype"

/-- Module constant _RUNTYPE_ENABLED (line 16): shell attribute whose presence
means runtype is enabled. -/
def _RUNTYPE_ENABLED : String := "_runtype_enabled"

/-- Module constant _RUNTYPE_CONFIG (line 17): shell attribute holding the
active configuration. -/
def _RUNTYPE_CONFIG : String := "_runtype_config"

/-- Module constant _RUNTYPE_EXCLUSION (line 18): function attribute set by
no_runtype and read by _runtype. -/
def _RUNTYPE_EXCLUSION : String := "_no_runtype"

/-- Python runtime values, as far as the claims need them: integers, strings,
booleans and None. -/
inductive PyVal where
  | intV (n : Int)
  | strV (s : String)
  | boolV (b : Bool)
  | noneV
deriving DecidableEq

/-- isinstance(v, bool) on an embedded Python value. -/
def PyVal.isBool : PyVal → Bool
  | PyVal.boolV _ => true
  | _ => false

/-- Extract the boolean from a value known to be a Python bool (only used
after the isinstance check of enable_runtype has passed). -/
def PyVal.asBool : PyVal → Bool
  | PyVal.boolV b => b
  | _ => false

/-- One per-field error descriptor, as produced by pydantic's
ValidationError.errors(): a dict read with err.get("loc", []),
err.get("msg", "Invalid value"), err.get("input", None)
(runtype.py lines 32-34).  Missing keys are the defaults. -/
structure ErrDesc where
  loc : List String := []
  msg : String := "Invalid value"
  input : Option PyVal := none
deriving DecidableEq

/-- Python exceptions relevant to the wrapper (runtype.py lines 136-168):
pydantic's ValidationError (carrying its structured errors()) and
PydanticSchemaGenerationError, this package's RuntypeError (lines 21-26:
fields errors and original_exception), and any other exception, identified
by its type name and message. -/
inductive PyExc where
  | validationError (errors : List ErrDesc)
  | schemaGenerationError
  | runtypeError (errors : List ErrDesc) (original_exception : Option PyExc)
  | otherException (ty : String) (msg : String)

/-- Decides whether a call result is a raised RuntypeError. -/
def isRuntypeErrResult : Except PyExc PyVal → Bool
  | Except.error (PyExc.runtypeError _ _) => true
  | _ => false

/-! ## RuntypeASTDecorator (runtype.py lines 42-58) -/

/-- A decorator expression in a decorator_list.  ast.Name nodes carry an id
attribute; other expression forms (ast.Attribute, ast.Call, ...) do not, so
getattr(deco, "id", None) yields None on them. -/
inductive DecoExpr where
  | name (id : String)
  | otherExpr (k : Nat)
deriving DecidableEq

/-- getattr(deco, "id", None) (runtype.py lines 46 and 54). -/
def DecoExpr.getId : DecoExpr → Option String
  | DecoExpr.name id => some id
  | DecoExpr.otherExpr _ => none

/-- The test applied to each existing decorator:
getattr(deco, "id", None) == _RUNTYPE_WRAPPER. -/
def isMarkerDeco (d : DecoExpr) : Bool :=
  d.getId == some _RUNTYPE_WRAPPER

/-- An ast.FunctionDef node, reduced to the field the transformer touches. -/
structure FunctionDefNode where
  decorator_list : List DecoExpr
deriving DecidableEq

/-- An ast.AsyncFunctionDef node, reduced to the same field. -/
structure AsyncFunctionDefNode where
  decorator_list : List DecoExpr
deriving DecidableEq

/-- RuntypeASTDecorator.visit_FunctionDef (runtype.py lines 43-50): the
for/break/else loop scans decorator_list for a decorator whose id attribute
equals _RUNTYPE_WRAPPER; only when none matches is
ast.Name(id=_RUNTYPE_WRAPPER) inserted at position 0. -/
def visit_FunctionDef (node : FunctionDefNode) : FunctionDefNode :=
  if node.decorator_list.any isMarkerDeco then node
  else ⟨DecoExpr.name _RUNTYPE_WRAPPER :: node.decorator_list⟩

/-- RuntypeASTDecorator.visit_AsyncFunctionDef (runtype.py lines 52-58):
identical logic on async function definitions. -/
def visit_AsyncFunctionDef (node : AsyncFunctionDefNode) : AsyncFunctionDefNode :=
  if node.decorator_list.any isMarkerDeco then node
  else ⟨DecoExpr.name _RUNTYPE_WRAPPER :: node.decorator_list⟩

/-- Number of marker decorators in a decorator list. -/
def countMarker (l : List DecoExpr) : Nat :=
  l.countP isMarkerDeco

theorem countMarker_zero_iff (l : List DecoExpr) :
    countMarker l = 0 ↔ l.any isMarkerDeco = false := by
  simp [countMarker, List.countP_eq_zero, List.any_eq_true]

/-! ## The decorator _runtype and its wrappers (runtype.py lines 124-168) -/

/-- A Python callable, as far as the wrapping logic inspects it: the
_no_runtype exclusion attribute (getattr(func, _RUNTYPE_EXCLUSION, False),
line 127), whether asyncio.iscoroutinefunction holds (line 133), and its
call behaviour: a call either returns a value or raises an exception. -/
structure PyFunc where
  no_runtype_attr : Bool
  isCoroutine : Bool
  call : List PyVal → Except PyExc PyVal

/-- The body of wrapper (runtype.py lines 154-166).  validated is the
callable produced by get_validated_func(); since that construction happens
inside the try block, a PydanticSchemaGenerationError raised while building
the schema surfaces as an error of the validated call here.
ValidationError e becomes RuntypeError(e.errors(), original_exception=e);
PydanticSchemaGenerationError becomes a RuntypeError with the single generic
descriptor; any other exception is re-raised unchanged. -/
def wrapper (validated : List PyVal → Except PyExc PyVal) (args : List PyVal) :
    Except PyExc PyVal :=
  match validated args with
  | Except.ok v => Except.ok v
  | Except.error (PyExc.validationError errs) =>
      Except.error (PyExc.runtypeError errs (some (PyExc.validationError errs)))
  | Except.error PyExc.schemaGenerationError =>
      Except.error (PyExc.runtypeError
        [{ msg := "Failed to generate Pydantic schema" }]
        (some PyExc.schemaGenerationError))
  | Except.error e => Except.error e

/-- The body of async_wrapper (runtype.py lines 136-148): textually the same
translation as wrapper, with the validated call awaited.  In the embedding
the await collapses to the call itself. -/
def async_wrapper (validated : List PyVal → Except PyExc PyVal) (args : List PyVal) :
    Except PyExc PyVal :=
  match validated args with
  | Except.ok v => Except.ok v
  | Except.error (PyExc.validationError errs) =>
      Except.error (PyExc.runtypeError errs (some (PyExc.validationError errs)))
  | Except.error PyExc.schemaGenerationError =>
      Except.error (PyExc.runtypeError
        [{ msg := "Failed to generate Pydantic schema" }]
        (some PyExc.schemaGenerationError))
  | Except.error e => Except.error e

/-- The configuration dictionary built by enable_runtype
(runtype.py lines 117-122): four boolean flags. -/
structure ConfigDict where
  strict : Bool
  validate_return : Bool
  validate_default : Bool
  arbitrary_types_allowed : Bool
deriving DecidableEq

/-- The configuration used by enable_runtype's keyword defaults
(runtype.py lines 81-84): all four flags True. -/
def defaultConfigDict : ConfigDict :=
  { strict := true, validate_return := true, validate_default := true,
    arbitrary_types_allowed := true }

/-- The type of the external validation engine:
validate_call(config=config, validate_return=validate_return)(func) applied
to call arguments.  The engine is a parameter of the embedding because
pydantic is outside this repository. -/
def Engine : Type :=
  ConfigDict → Bool → PyFunc → List PyVal → Except PyExc PyVal

/-- The decorator _runtype (runtype.py lines 125-168), closed over a given
engine and the enable-time config: if the exclusion attribute is set, the
function is returned unchanged; otherwise the matching-shape wrapper is
produced around the validated form of func (functools.wraps preserves the
function's metadata, modelled by keeping the other fields of func). -/
def _runtype (engine : Engine) (config : ConfigDict) (func : PyFunc) : PyFunc :=
  if func.no_runtype_attr then func
  else if func.isCoroutine then
    { func with call := async_wrapper (engine config config.validate_return func) }
  else
    { func with call := wrapper (engine config config.validate_return func) }

/-- Modelled from the spec: the external validation engine (pydantic's
validate_call), specialised to a function of signature (x: int) -> int under
the default configuration (strict=True).  Per spec section 6, the engine
validates call arguments against the annotations and raises a structured
failure with per-field location/message/value: an integer argument is
accepted and the underlying function invoked; any other single argument
raises a ValidationError whose single descriptor references parameter x and
carries the offending value. -/
def engineOneIntArg : Engine := fun _config _vr func args =>
  match args with
  | [PyVal.intV _] => func.call args
  | [v] => Except.error (PyExc.validationError
      [{ loc := ["x"], msg := "Input should be a valid integer", input := some v }])
  | _ => Except.error (PyExc.validationError
      [{ msg := "Missing required argument" }])

/-- Modelled from the spec: the raw (unwrapped) behaviour of the example
function f(x: int) -> int returning x + 1 (spec section 8).  Called with an
integer it returns the successor; called with a string, plain Python
evaluation of x + 1 raises a TypeError, not a validation error. -/
def f_raw_call (args : List PyVal) : Except PyExc PyVal :=
  match args with
  | [PyVal.intV n] => Except.ok (PyVal.intV (n + 1))
  | [PyVal.strV _] => Except.error (PyExc.otherException "TypeError"
      "can only concatenate str to str")
  | _ => Except.error (PyExc.otherException "TypeError" "bad arguments")

/-- The synchronous example function f of the spec: not excluded, not a
coroutine function. -/
def fFunc : PyFunc :=
  { no_runtype_attr := false, isCoroutine := false, call := f_raw_call }

/-- The asynchronous example function g of the spec: same signature and body
behaviour as f, but a coroutine function. -/
def gFunc : PyFunc :=
  { fFunc with isCoroutine := true }

/-- The function f after the exclusion marker no_runtype (runtype.py
lines 251-260) has set the _no_runtype attribute to True on it. -/
def fExcluded : PyFunc :=
  { fFunc with no_runtype_attr := true }

/-- The descriptor list pydantic reports for f("a") in the modelled engine. -/
def xErrList : List ErrDesc :=
  [{ loc := ["x"], msg := "Input should be a valid integer",
     input := some (PyVal.strV "a") }]

/-! ## Session control (runtype.py lines 61-248) -/

/-- A value bound in the shell's user namespace: the injected _runtype
decorator closure (carrying the config it closed over) or any other
binding. -/
inductive NsVal where
  | runtypeDeco (config : ConfigDict)
  | otherVal (k : Nat)
deriving DecidableEq

/-- An entry of ip.ast_transformers: this package's RuntypeASTDecorator
instance or any other transformer (disable_runtype filters by isinstance). -/
inductive Transformer where
  | runtypeASTDecorator
  | otherTransformer (k : Nat)
deriving DecidableEq

/-- Python dict membership: key in ns. -/
def containsKey (ns : List (String × NsVal)) (k : String) : Bool :=
  ns.any (fun kv => kv.1 == k)

/-- Python dict assignment ns[k] = v (ip.push updates user_ns): replace the
value in place if the key is present, otherwise append the new binding in
insertion order. -/
def pushDict (ns : List (String × NsVal)) (k : String) (v : NsVal) :
    List (String × NsVal) :=
  match ns with
  | [] => [(k, v)]
  | kv :: rest =>
      if kv.1 == k then (k, v) :: rest else kv :: pushDict rest k v

/-- Python dict deletion del ns[k]: remove the (unique) binding of key k. -/
def eraseKey (ns : List (String × NsVal)) (k : String) :
    List (String × NsVal) :=
  match ns with
  | [] => []
  | kv :: rest => if kv.1 == k then rest else kv :: eraseKey rest k

/-- The IPython InteractiveShell state, as far as runtype touches it:
user_ns (the evaluation namespace), ast_transformers, presence of the
_runtype_enabled attribute (hasattr(ip, _RUNTYPE_ENABLED), line 76), and the
_runtype_config attribute when set. -/
structure Shell where
  userNs : List (String × NsVal)
  astTransformers : List Transformer
  runtypeEnabled : Bool
  runtypeConfig : Option ConfigDict
deriving DecidableEq

/-- Errors raised by the session-control functions: TypeError from the flag
check, RuntimeError from host lookup and the enable failure paths. -/
inductive PyErr where
  | typeError (msg : String)
  | runtimeError (msg : String)
deriving DecidableEq

/-- Printable rendering of a ConfigDict, standing in for the repr
interpolated into the success message of enable_runtype (line 187). -/
def configStr (c : ConfigDict) : String :=
  let pyBool := fun (b : Bool) => if b then "True" else "False"
  "strict=" ++ pyBool c.strict ++ ", validate_return=" ++ pyBool c.validate_return
    ++ ", validate_default=" ++ pyBool c.validate_default
    ++ ", arbitrary_types_allowed=" ++ pyBool c.arbitrary_types_allowed

/-- The observable outcome of a call to enable_runtype: whether it returned
normally or raised, the resulting host state (None when no IPython shell
exists), and the messages it printed, in order. -/
structure EnableResult where
  outcome : Except PyErr Unit
  ctx : Option Shell
  printed : List String

/-- enable_runtype (runtype.py lines 79-187), over an explicit optional
shell.  The two host interactions that the source wraps in try/except --
ip.push (line 172) and the transformer registration (line 178) -- are given
explicit failure switches pushFails and regFails; a failing host operation
is taken to raise without mutating its target.  The steps, in source order:
the isinstance check on the four flags (lines 97-106, before any host
lookup); _get_ipython_context (line 109), raising RuntimeError when no shell
exists; the already-enabled early return with its printed notice
(lines 112-114); construction of the config dict (lines 117-122); namespace
injection of the _runtype closure under _RUNTYPE_WRAPPER, re-raised as
RuntimeError on failure (lines 171-174); transformer registration plus the
two setattr calls, with the rollback (lines 177-185) deleting the injected
namespace entry if present; finally the success message (line 187). -/
def enable_runtype (pushFails regFails : Bool) (ctx : Option Shell)
    (strict validate_return validate_default arbitrary_types_allowed : PyVal) :
    EnableResult :=
  if !(strict.isBool && validate_return.isBool && validate_default.isBool
        && arbitrary_types_allowed.isBool) then
    ⟨Except.error (PyErr.typeError "All parameters must be boolean values"), ctx, []⟩
  else
    match ctx with
    | none =>
        ⟨Except.error (PyErr.runtimeError
          "This should be run from an IPython environment."), none, []⟩
    | some ip =>
        if ip.runtypeEnabled then
          ⟨Except.ok (), some ip, ["runtype already enabled."]⟩
        else
          let config : ConfigDict :=
            { strict := strict.asBool, validate_return := validate_return.asBool,
              validate_default := validate_default.asBool,
              arbitrary_types_allowed := arbitrary_types_allowed.asBool }
          if pushFails then
            ⟨Except.error (PyErr.runtimeError "Failed to inject runtype decorator"),
             some ip, []⟩
          else
            let pushedNs := pushDict ip.userNs _RUNTYPE_WRAPPER (NsVal.runtypeDeco config)
            let ip1 : Shell := { ip with userNs := pushedNs }
            if regFails then
              let ip2 : Shell :=
                if containsKey ip1.userNs _RUNTYPE_WRAPPER then
                  { ip1 with userNs := eraseKey ip1.userNs _RUNTYPE_WRAPPER }
                else ip1
              ⟨Except.error (PyErr.runtimeError "Failed to register AST transformer"),
               some ip2, []⟩
            else
              ⟨Except.ok (),
               some { ip1 with
                  astTransformers :=
                    ip1.astTransformers ++ [Transformer.runtypeASTDecorator],
                  runtypeEnabled := true,
                  runtypeConfig := some config },
               ["runtype enabled with config=" ++ configStr config]⟩

/-- is_runtype_enabled (runtype.py lines 219-232): False when no shell
exists (the RuntimeError from _get_ipython_context is caught), otherwise the
presence of the enabled attribute. -/
def is_runtype_enabled (ctx : Option Shell) : Bool :=
  match ctx with
  | none => false
  | some ip => ip.runtypeEnabled

/-- get_runtype_config (runtype.py lines 235-248): RuntimeError when no
shell exists or when runtype is not enabled; otherwise
getattr(ip, _RUNTYPE_CONFIG, \x7b\x7d), i.e. the stored config, with none
standing for the empty-dict default when the attribute is absent. -/
def get_runtype_config (ctx : Option Shell) : Except PyErr (Option ConfigDict) :=
  match ctx with
  | none => Except.error (PyErr.runtimeError
      "This should be run from an IPython environment.")
  | some ip =>
      if !ip.runtypeEnabled then
        Except.error (PyErr.runtimeError "runtype is not enabled.")
      else
        Except.ok ip.runtypeConfig

/-- Decides whether a get_runtype_config result returned a configuration. -/
def configIsOk (r : Except PyErr (Option ConfigDict)) : Bool :=
  match r with
  | Except.ok _ => true
  | Except.error _ => false

theorem containsKey_pushDict (ns : List (String × NsVal)) (k : String) (v : NsVal) :
    containsKey (pushDict ns k v) k = true := by
  induction ns with
  | nil => simp [pushDict, containsKey]
  | cons kv rest ih =>
      by_cases h : kv.1 = k
      · simp [pushDict, containsKey, h]
      · simp only [pushDict, containsKey] at ih ⊢
        simp [h, ih]

theorem eraseKey_pushDict (ns : List (String × NsVal)) (k : String) (v : NsVal)
    (h : containsKey ns k = false) : eraseKey (pushDict ns k v) k = ns := by
  induction ns with
  | nil => simp [pushDict, eraseKey]
  | cons kv rest ih =>
      simp only [containsKey, List.any_cons, Bool.or_eq_false_iff] at h
      have hk : (kv.1 == k) = false := h.1
      have hrest : containsKey rest k = false := by
        simpa [containsKey] using h.2
      simp [pushDict, eraseKey, hk, ih hrest]

/-! ## Claim theorems -/

/-- C1: For the synchronous function f(x: int) -> int returning x + 1, wrapped
by the decorator produced under the default configuration: f(1) returns 2,
and f("a") raises a RuntypeError whose descriptor list has exactly one entry
located at parameter x, with the engine's ValidationError preserved as
original_exception. -/
theorem wrapped_sync_int_inc_validation :
    (_runtype engineOneIntArg defaultConfigDict fFunc).call [PyVal.intV 1]
        = Except.ok (PyVal.intV 2) ∧
    (_runtype engineOneIntArg defaultConfigDict fFunc).call [PyVal.strV "a"]
        = Except.error (PyExc.runtypeError xErrList
            (some (PyExc.validationError xErrList))) ∧
    xErrList.length = 1 ∧
    xErrList.map ErrDesc.loc = [["x"]] :=
  ⟨rfl, rfl, rfl, rfl⟩

/-- C2 counterexample: on a node whose decorator list already holds two
decorators named _runtype, applying the Transform Pass twice leaves both, so
the resulting decorator list does not contain exactly one marker entry. -/
theorem ast_double_marker_counterexample :
    ¬ countMarker ((visit_FunctionDef (visit_FunctionDef
        ⟨[DecoExpr.name _RUNTYPE_WRAPPER, DecoExpr.name _RUNTYPE_WRAPPER]⟩)).decorator_list)
      = 1 := by
  decide

/-- C2 (amended): the Transform Pass is idempotent on function-definition and
async-function-definition nodes; it inserts the marker first when no decorator
carries the marker identifier and inserts nothing when one is already present;
applying it twice yields exactly one marker entry whenever the original list
held at most one. -/
theorem ast_transform_idempotent (node : FunctionDefNode)
    (anode : AsyncFunctionDefNode) :
    visit_FunctionDef (visit_FunctionDef node) = visit_FunctionDef node ∧
    visit_AsyncFunctionDef (visit_AsyncFunctionDef anode) = visit_AsyncFunctionDef anode ∧
    (node.decorator_list.any isMarkerDeco = true → visit_FunctionDef node = node) ∧
    (countMarker node.decorator_list = 0 →
      (visit_FunctionDef node).decorator_list
        = DecoExpr.name _RUNTYPE_WRAPPER :: node.decorator_list) ∧
    (countMarker node.decorator_list ≤ 1 →
      countMarker ((visit_FunctionDef (visit_FunctionDef node)).decorator_list) = 1) ∧
    (anode.decorator_list.any isMarkerDeco = true →
      visit_AsyncFunctionDef anode = anode) ∧
    (countMarker anode.decorator_list = 0 →
      (visit_AsyncFunctionDef anode).decorator_list
        = DecoExpr.name _RUNTYPE_WRAPPER :: anode.decorator_list) ∧
    (countMarker anode.decorator_list ≤ 1 →
      countMarker ((visit_AsyncFunctionDef (visit_AsyncFunctionDef anode)).decorator_list)
        = 1) := by
  have hmark : isMarkerDeco (DecoExpr.name _RUNTYPE_WRAPPER) = true := by decide
  refine ⟨?_, ?_, ?_, ?_, ?_, ?_, ?_, ?_⟩
  · by_cases h : node.decorator_list.any isMarkerDeco
    · simp [visit_FunctionDef, h]
    · simp [visit_FunctionDef, h, hmark]
  · by_cases h : anode.decorator_list.any isMarkerDeco
    · simp [visit_AsyncFunctionDef, h]
    · simp [visit_AsyncFunctionDef, h, hmark]
  · intro h
    simp [visit_FunctionDef, h]
  · intro h
    rw [countMarker_zero_iff] at h
    simp [visit_FunctionDef, h]
  · intro h
    by_cases hany : node.decorator_list.any isMarkerDeco
    · have hpos : countMarker node.decorator_list ≠ 0 := by
        intro hz
        rw [countMarker_zero_iff] at hz
        rw [hz] at hany
        exact Bool.noConfusion hany
      simp [visit_FunctionDef, hany]
      omega
    · have hzero : node.decorator_list.countP isMarkerDeco = 0 :=
        (countMarker_zero_iff node.decorator_list).2 (by simpa using hany)
      simp [visit_FunctionDef, hany, hmark, countMarker, List.countP_cons, hzero]
  · intro h
    simp [visit_AsyncFunctionDef, h]
  · intro h
    rw [countMarker_zero_iff] at h
    simp [visit_AsyncFunctionDef, h]
  · intro h
    by_cases hany : anode.decorator_list.any isMarkerDeco
    · have hpos : countMarker anode.decorator_list ≠ 0 := by
        intro hz
        rw [countMarker_zero_iff] at hz
        rw [hz] at hany
        exact Bool.noConfusion hany
      simp [visit_AsyncFunctionDef, hany]
      omega
    · have hzero : anode.decorator_list.countP isMarkerDeco = 0 :=
        (countMarker_zero_iff anode.decorator_list).2 (by simpa using hany)
      simp [visit_AsyncFunctionDef, hany, hmark, countMarker, List.countP_cons, hzero]

/-- C2 witness for the amended theorem: on undecorated sync and async nodes
the marker is inserted; on sync and async nodes already carrying the marker
nothing is inserted; applying the pass twice to an undecorated node of either
kind yields exactly one marker entry. -/
theorem ast_transform_idempotent_witness :
    (visit_FunctionDef ⟨[]⟩).decorator_list = [DecoExpr.name _RUNTYPE_WRAPPER] ∧
    visit_FunctionDef ⟨[DecoExpr.name _RUNTYPE_WRAPPER]⟩
      = ⟨[DecoExpr.name _RUNTYPE_WRAPPER]⟩ ∧
    countMarker ((visit_FunctionDef (visit_FunctionDef ⟨[]⟩)).decorator_list) = 1 ∧
    (visit_AsyncFunctionDef ⟨[]⟩).decorator_list = [DecoExpr.name _RUNTYPE_WRAPPER] ∧
    visit_AsyncFunctionDef ⟨[DecoExpr.name _RUNTYPE_WRAPPER]⟩
      = ⟨[DecoExpr.name _RUNTYPE_WRAPPER]⟩ ∧
    countMarker ((visit_AsyncFunctionDef (visit_AsyncFunctionDef ⟨[]⟩)).decorator_list)
      = 1 :=
  ⟨(ast_transform_idempotent ⟨[]⟩ ⟨[]⟩).2.2.2.1 (by decide),
   (ast_transform_idempotent ⟨[DecoExpr.name _RUNTYPE_WRAPPER]⟩ ⟨[]⟩).2.2.1 (by decide),
   (ast_transform_idempotent ⟨[]⟩ ⟨[]⟩).2.2.2.2.1 (by decide),
   (ast_transform_idempotent ⟨[]⟩ ⟨[]⟩).2.2.2.2.2.2.1 (by decide),
   (ast_transform_idempotent ⟨[]⟩ ⟨[DecoExpr.name _RUNTYPE_WRAPPER]⟩).2.2.2.2.2.1
     (by decide),
   (ast_transform_idempotent ⟨[]⟩ ⟨[]⟩).2.2.2.2.2.2.2 (by decide)⟩

/-- C3: an exception raised by the validated call that is neither a
ValidationError nor a PydanticSchemaGenerationError propagates out of both
the synchronous and the asynchronous wrapper unchanged. -/
theorem non_validation_exceptions_pass_through
    (validated : List PyVal → Except PyExc PyVal) (args : List PyVal) (e : PyExc)
    (hval : validated args = Except.error e)
    (hnv : ∀ errs, e ≠ PyExc.validationError errs)
    (hns : e ≠ PyExc.schemaGenerationError) :
    wrapper validated args = Except.error e ∧
    async_wrapper validated args = Except.error e := by
  cases e with
  | validationError errs => exact absurd rfl (hnv errs)
  | schemaGenerationError => exact absurd rfl hns
  | runtypeError errs orig =>
      exact ⟨by simp [wrapper, hval], by simp [async_wrapper, hval]⟩
  | otherException ty msg =>
      exact ⟨by simp [wrapper, hval], by simp [async_wrapper, hval]⟩

/-- C3 witness: a ValueError raised by the function body passes through both
wrappers with its type and message intact. -/
theorem non_validation_exceptions_pass_through_witness :
    wrapper (fun _ => Except.error (PyExc.otherException "ValueError" "boom")) []
        = Except.error (PyExc.otherException "ValueError" "boom") ∧
    async_wrapper (fun _ => Except.error (PyExc.otherException "ValueError" "boom")) []
        = Except.error (PyExc.otherException "ValueError" "boom") :=
  non_validation_exceptions_pass_through _ [] _ rfl
    (fun _ h => PyExc.noConfusion h) (fun h => PyExc.noConfusion h)

/-- C7: a function whose exclusion attribute is set is returned by _runtype
as the identical callable, for every engine and configuration; in particular
calling the excluded example function with a string argument raises no
RuntypeError. -/
theorem excluded_function_not_wrapped (engine : Engine) (config : ConfigDict)
    (func : PyFunc) (hexcl : func.no_runtype_attr = true) :
    _runtype engine config func = func ∧
    isRuntypeErrResult ((_runtype engine config fExcluded).call [PyVal.strV "a"])
      = false := by
  constructor
  · simp [_runtype, hexcl]
  · rfl

/-- C7 witness: the excluded example function is returned unchanged by the
decorator built from the modelled engine and default configuration. -/
theorem excluded_function_not_wrapped_witness :
    _runtype engineOneIntArg defaultConfigDict fExcluded = fExcluded ∧
    isRuntypeErrResult ((_runtype engineOneIntArg defaultConfigDict fExcluded).call
        [PyVal.strV "a"]) = false :=
  excluded_function_not_wrapped engineOneIntArg defaultConfigDict fExcluded rfl

/-- C8: the asynchronous wrapper performs exactly the synchronous wrapper's
translation on every validated call and argument list; the wrapped
asynchronous example function g returns 2 on g(1) and behaves on every
argument list exactly as the wrapped synchronous f does. -/
theorem async_wrapper_matches_sync :
    (∀ (validated : List PyVal → Except PyExc PyVal) (args : List PyVal),
        async_wrapper validated args = wrapper validated args) ∧
    (_runtype engineOneIntArg defaultConfigDict gFunc).call [PyVal.intV 1]
        = Except.ok (PyVal.intV 2) ∧
    (∀ args : List PyVal,
        (_runtype engineOneIntArg defaultConfigDict gFunc).call args
          = (_runtype engineOneIntArg defaultConfigDict fFunc).call args) :=
  ⟨fun _ _ => rfl, rfl, fun _ => rfl⟩

/-- C4: enable_runtype is atomic under partial failure.  From a disabled
shell whose namespace does not yet bind the reserved name: if namespace
injection fails, the call raises and the shell is returned exactly as it was
(no transformer registered, no enabled flag, no config); if transformer
registration fails after injection succeeded, the injected namespace entry
is rolled back and the shell is again exactly as it was. -/
theorem enable_rollback_atomic (ip : Shell) (b1 b2 b3 b4 : Bool) (regFails : Bool)
    (hdis : ip.runtypeEnabled = false)
    (hns : containsKey ip.userNs _RUNTYPE_WRAPPER = false) :
    enable_runtype true regFails (some ip)
        (PyVal.boolV b1) (PyVal.boolV b2) (PyVal.boolV b3) (PyVal.boolV b4)
      = ⟨Except.error (PyErr.runtimeError "Failed to inject runtype decorator"),
         some ip, []⟩ ∧
    enable_runtype false true (some ip)
        (PyVal.boolV b1) (PyVal.boolV b2) (PyVal.boolV b3) (PyVal.boolV b4)
      = ⟨Except.error (PyErr.runtimeError "Failed to register AST transformer"),
         some ip, []⟩ := by
  obtain ⟨ns, ts, en, cfg⟩ := ip
  simp only at hdis hns
  subst hdis
  constructor
  · simp [enable_runtype, PyVal.isBool]
  · simp [enable_runtype, PyVal.isBool, containsKey_pushDict,
      eraseKey_pushDict _ _ _ hns]

/-- C4 witness: on an empty disabled shell, both failure modes of
enable_runtype leave the shell exactly as it was. -/
theorem enable_rollback_atomic_witness :
    enable_runtype true false (some ⟨[], [], false, none⟩)
        (PyVal.boolV true) (PyVal.boolV true) (PyVal.boolV true) (PyVal.boolV true)
      = ⟨Except.error (PyErr.runtimeError "Failed to inject runtype decorator"),
         some ⟨[], [], false, none⟩, []⟩ ∧
    enable_runtype false true (some ⟨[], [], false, none⟩)
        (PyVal.boolV true) (PyVal.boolV true) (PyVal.boolV true) (PyVal.boolV true)
      = ⟨Except.error (PyErr.runtimeError "Failed to register AST transformer"),
         some ⟨[], [], false, none⟩, []⟩ :=
  enable_rollback_atomic ⟨[], [], false, none⟩ true true true true false rfl rfl

/-- C5: from a disabled shell, a successful enable_runtype with any four
boolean flags followed immediately by get_runtype_config returns exactly
those four flag values. -/
theorem enable_then_get_config (ip : Shell) (b1 b2 b3 b4 : Bool)
    (hdis : ip.runtypeEnabled = false) :
    (enable_runtype false false (some ip)
        (PyVal.boolV b1) (PyVal.boolV b2) (PyVal.boolV b3) (PyVal.boolV b4)).outcome
      = Except.ok () ∧
    get_runtype_config ((enable_runtype false false (some ip)
        (PyVal.boolV b1) (PyVal.boolV b2) (PyVal.boolV b3) (PyVal.boolV b4)).ctx)
      = Except.ok (some ⟨b1, b2, b3, b4⟩) := by
  constructor
  · simp [enable_runtype, PyVal.isBool, hdis]
  · simp [enable_runtype, PyVal.isBool, PyVal.asBool, hdis, get_runtype_config]

/-- C5 witness: enabling an empty disabled shell with the flag tuple
(true, false, true, false) and reading the config back yields that tuple. -/
theorem enable_then_get_config_witness :
    (enable_runtype false false (some ⟨[], [], false, none⟩)
        (PyVal.boolV true) (PyVal.boolV false) (PyVal.boolV true)
        (PyVal.boolV false)).outcome = Except.ok () ∧
    get_runtype_config ((enable_runtype false false (some ⟨[], [], false, none⟩)
        (PyVal.boolV true) (PyVal.boolV false) (PyVal.boolV true)
        (PyVal.boolV false)).ctx)
      = Except.ok (some ⟨true, false, true, false⟩) :=
  enable_then_get_config ⟨[], [], false, none⟩ true false true false rfl

/-- C6: calling enable_runtype with boolean flags on an already-enabled shell
returns normally after printing only the already-enabled notice, leaving the
shell (and so the stored configuration) exactly as it was, whatever the
failure switches. -/
theorem enable_when_enabled_noop (pushFails regFails : Bool) (ip : Shell)
    (b1 b2 b3 b4 : Bool) (hen : ip.runtypeEnabled = true) :
    enable_runtype pushFails regFails (some ip)
        (PyVal.boolV b1) (PyVal.boolV b2) (PyVal.boolV b3) (PyVal.boolV b4)
      = ⟨Except.ok (), some ip, ["runtype already enabled."]⟩ := by
  simp [enable_runtype, PyVal.isBool, hen]

/-- C6 witness: a second enable on a shell already enabled with the default
configuration leaves that configuration and the whole shell untouched. -/
theorem enable_when_enabled_noop_witness :
    enable_runtype false false
        (some ⟨[(_RUNTYPE_WRAPPER, NsVal.runtypeDeco defaultConfigDict)],
               [Transformer.runtypeASTDecorator], true, some defaultConfigDict⟩)
        (PyVal.boolV false) (PyVal.boolV false) (PyVal.boolV false)
        (PyVal.boolV false)
      = ⟨Except.ok (),
         some ⟨[(_RUNTYPE_WRAPPER, NsVal.runtypeDeco defaultConfigDict)],
               [Transformer.runtypeASTDecorator], true, some defaultConfigDict⟩,
         ["runtype already enabled."]⟩ :=
  enable_when_enabled_noop false false _ false false false false rfl

/-- C9: whenever runtype is not enabled -- no shell, or a shell without the
enabled flag -- get_runtype_config never returns a configuration, and on a
disabled shell it raises exactly the not-enabled RuntimeError; whenever the
shell is enabled it returns the stored configuration. -/
theorem get_config_enabled_iff (ctx : Option Shell) (ip : Shell) :
    (is_runtype_enabled ctx = false → configIsOk (get_runtype_config ctx) = false) ∧
    (ip.runtypeEnabled = false →
      get_runtype_config (some ip)
        = Except.error (PyErr.runtimeError "runtype is not enabled.")) ∧
    (ip.runtypeEnabled = true →
      get_runtype_config (some ip) = Except.ok ip.runtypeConfig) := by
  refine ⟨?_, ?_, ?_⟩
  · intro h
    cases ctx with
    | none => rfl
    | some s =>
        simp only [is_runtype_enabled] at h
        simp [get_runtype_config, h, configIsOk]
  · intro h
    simp [get_runtype_config, h]
  · intro h
    simp [get_runtype_config, h]

/-- C9 witness: with no shell no configuration is returned; a disabled shell
raises the not-enabled error even when a stale config attribute lingers; an
enabled shell returns its stored configuration. -/
theorem get_config_enabled_iff_witness :
    configIsOk (get_runtype_config none) = false ∧
    get_runtype_config (some ⟨[], [], false, none⟩)
      = Except.error (PyErr.runtimeError "runtype is not enabled.") ∧
    get_runtype_config (some ⟨[], [], true, some defaultConfigDict⟩)
      = Except.ok (some defaultConfigDict) :=
  ⟨(get_config_enabled_iff none ⟨[], [], false, none⟩).1 rfl,
   (get_config_enabled_iff none ⟨[], [], false, none⟩).2.1 rfl,
   (get_config_enabled_iff none ⟨[], [], true, some defaultConfigDict⟩).2.2 rfl⟩

/-- C10: when at least one flag argument is not a boolean, enable_runtype
raises the TypeError before any host interaction: the host state is left
untouched and nothing is printed, for every context -- including an
already-enabled shell and a missing host session. -/
theorem enable_nonbool_type_error (pushFails regFails : Bool) (ctx : Option Shell)
    (p1 p2 p3 p4 : PyVal)
    (h : (p1.isBool && p2.isBool && p3.isBool && p4.isBool) = false) :
    enable_runtype pushFails regFails ctx p1 p2 p3 p4
      = ⟨Except.error (PyErr.typeError "All parameters must be boolean values"),
         ctx, []⟩ := by
  simp [enable_runtype, h]

/-- C10 witness: an integer passed as the strict flag to an already-enabled
shell raises the TypeError with no state change and no printed notice. -/
theorem enable_nonbool_type_error_witness :
    enable_runtype false false
        (some ⟨[], [], true, some defaultConfigDict⟩)
        (PyVal.intV 0) (PyVal.boolV true) (PyVal.boolV true) (PyVal.boolV true)
      = ⟨Except.error (PyErr.typeError "All parameters must be boolean values"),
         some ⟨[], [], true, some defaultConfigDict⟩, []⟩ :=
  enable_nonbool_type_error false false _ _ _ _ _ rfl

end NbRuntype
